import Mathlib

/-!
Shallow embedding of the ION allocator and the TPU (TDMA + TIU) driver of
the repository (src/api/src/vfs/dev/{ion,tpu}).  MMIO register banks are
modelled as total maps from byte offsets to 32-bit values together with an
ordered trace of the writes performed; machine integers are `Nat` reduced
modulo `2^32` where the code truncates.
-/

namespace Starry

/-- Truncation to a 32-bit value, modelling `as u32` / u32 register writes. -/
def u32 (n : Nat) : Nat := n % 4294967296

/-- A single volatile register write, tagged by the bank it lands in. -/
inductive Wr where
  | tdma (off val : Nat)
  | tiu (off val : Nat)
  deriving DecidableEq, Repr

/-- The two MMIO register banks (TDMA and TIU) plus the ordered write trace.
Values are stored per byte offset; reads normalise modulo `2^32` since the
hardware registers are 32 bits wide. -/
structure RegState where
  tdma : Nat → Nat
  tiu : Nat → Nat
  trace : List Wr

/-- Volatile 32-bit read from the TDMA bank (`TdmaRegs::read`). -/
def tdmaRead (s : RegState) (off : Nat) : Nat := u32 (s.tdma off)

/-- Volatile 32-bit write to the TDMA bank (`TdmaRegs::write`). -/
def tdmaWrite (s : RegState) (off v : Nat) : RegState :=
  { s with
    tdma := fun o => if o = off then u32 v else s.tdma o
    trace := s.trace ++ [Wr.tdma off (u32 v)] }

/-- Volatile 32-bit read from the TIU bank (`TiuRegs::read`). -/
def tiuRead (s : RegState) (off : Nat) : Nat := u32 (s.tiu off)

/-- Volatile 32-bit write to the TIU bank (`TiuRegs::write`). -/
def tiuWrite (s : RegState) (off v : Nat) : RegState :=
  { s with
    tiu := fun o => if o = off then u32 v else s.tiu o
    trace := s.trace ++ [Wr.tiu off (u32 v)] }

-- ===== TDMA register offsets (tdma.rs) =====

def TDMA_CTRL : Nat := 0x0
def TDMA_DES_BASE : Nat := 0x4
def TDMA_INT_MASK : Nat := 0x8
def TDMA_SYNC_STATUS : Nat := 0xC
def TDMA_ARRAYBASE0_L : Nat := 0x70
def TDMA_ARRAYBASE1_L : Nat := 0x74
def TDMA_ARRAYBASE2_L : Nat := 0x78
def TDMA_ARRAYBASE3_L : Nat := 0x7C
def TDMA_ARRAYBASE4_L : Nat := 0x80
def TDMA_ARRAYBASE5_L : Nat := 0x84
def TDMA_ARRAYBASE6_L : Nat := 0x88
def TDMA_ARRAYBASE7_L : Nat := 0x8C
def TDMA_ARRAYBASE0_H : Nat := 0x90
def TDMA_ARRAYBASE1_H : Nat := 0x94
def TDMA_DEBUG_MODE : Nat := 0xA0
def TDMA_DCM_DISABLE : Nat := 0xA4
def TPUPMU_CTRL : Nat := 0x200
def TPUPMU_BUFBASE : Nat := 0x20C
def TPUPMU_BUFSIZE : Nat := 0x210

def TDMA_CTRL_ENABLE_BIT : Nat := 0
def TDMA_CTRL_MODESEL_BIT : Nat := 1
def TDMA_CTRL_RESET_SYNCID_BIT : Nat := 2
def TDMA_CTRL_FORCE_1ARRAY : Nat := 5
def TDMA_CTRL_BURSTLEN_BIT : Nat := 8
def TDMA_CTRL_64BYTE_ALIGN_EN : Nat := 10
def TDMA_CTRL_INTRA_CMD_OFF : Nat := 13
def TDMA_CTRL_DESNUM_BIT : Nat := 16

def TDMA_MASK_INIT : Nat := 0x20
def TDMA_INT_EOD : Nat := 0x1
def TDMA_INT_EOPMU : Nat := 0x8000

-- ===== TIU register offsets (tiu.rs) =====

def BDC_ENGINE_CMD_ALIGNED_BIT : Nat := 8
def BD_CTRL_BASE_ADDR : Nat := 0x100
def BD_TPU_EN : Nat := 0
def BD_DES_ADDR_VLD : Nat := 30
def BD_INTR_ENABLE : Nat := 31

/-- `TiuRegs::read_bd_ctrl`: read at `BD_CTRL_BASE_ADDR + offset`. -/
def tiuReadBd (s : RegState) (off : Nat) : Nat := tiuRead s (BD_CTRL_BASE_ADDR + off)

/-- `TiuRegs::write_bd_ctrl`: write at `BD_CTRL_BASE_ADDR + offset`. -/
def tiuWriteBd (s : RegState) (off v : Nat) : RegState :=
  tiuWrite s (BD_CTRL_BASE_ADDR + off) v

-- ===== DMA header and CPU sync descriptor (types.rs) =====

/-- The 128-byte DMA buffer header (`DmaHeader` in types.rs); only the fields
the driver reads are modelled, with the reserved words omitted. -/
structure DmaHeader where
  dmabuf_magic_m : Nat := 0
  dmabuf_magic_s : Nat := 0
  dmabuf_size : Nat := 0
  cpu_desc_count : Nat := 0
  bd_desc_count : Nat := 0
  tdma_desc_count : Nat := 0
  tpu_clk_rate : Nat := 0
  pmubuf_size : Nat := 0
  pmubuf_offset : Nat := 0
  arraybase_0_l : Nat := 0
  arraybase_0_h : Nat := 0
  arraybase_1_l : Nat := 0
  arraybase_1_h : Nat := 0
  arraybase_2_l : Nat := 0
  arraybase_2_h : Nat := 0
  arraybase_3_l : Nat := 0
  arraybase_3_h : Nat := 0
  arraybase_4_l : Nat := 0
  arraybase_4_h : Nat := 0
  arraybase_5_l : Nat := 0
  arraybase_5_h : Nat := 0
  arraybase_6_l : Nat := 0
  arraybase_6_h : Nat := 0
  arraybase_7_l : Nat := 0
  arraybase_7_h : Nat := 0
  deriving DecidableEq, Repr

/-- `TPU_DMABUF_HEADER_M` from tpu/mod.rs. -/
def TPU_DMABUF_HEADER_M : Nat := 0xB5B5

/-- `DmaHeader::is_valid`: the magic word check. -/
def DmaHeader.is_valid (h : DmaHeader) : Bool :=
  h.dmabuf_magic_m == TPU_DMABUF_HEADER_M

/-- `DmaHeader::has_valid_pmu`. -/
def DmaHeader.has_valid_pmu (h : DmaHeader) : Bool :=
  h.pmubuf_offset != 0 && h.pmubuf_size != 0 &&
    (h.pmubuf_offset &&& 0xF) == 0 && (h.pmubuf_size &&& 0xF) == 0

/-- `CpuSyncDesc` from types.rs (the debug string payload is omitted). -/
structure CpuSyncDesc where
  op_type : Nat := 0
  num_bd : Nat := 0
  num_gdma : Nat := 0
  offset_bd : Nat := 0
  offset_gdma : Nat := 0
  deriving DecidableEq, Repr, Inhabited

/-- `CmdIdNode` from types.rs. -/
structure CmdIdNode where
  bd_cmd_id : Nat
  tdma_cmd_id : Nat
  deriving DecidableEq, Repr

/-- `TpuPmuEvent` from types.rs. -/
inductive TpuPmuEvent where
  | BankConflict
  | StallCount
  | TdmaBandwidth
  | TdmaWriteStrobe
  deriving DecidableEq, Repr

/-- The `repr(u32)` discriminant of a `TpuPmuEvent`. -/
def TpuPmuEvent.val : TpuPmuEvent → Nat
  | .BankConflict => 0x0
  | .StallCount => 0x1
  | .TdmaBandwidth => 0x2
  | .TdmaWriteStrobe => 0x3

-- ===== TDMA operations (tdma.rs) =====

/-- `TdmaRegs::clear_interrupt`. -/
def TdmaRegs.clear_interrupt (s : RegState) : RegState :=
  tdmaWrite s TDMA_INT_MASK 0xFFFF0000

/-- `TdmaRegs::set_array_bases`: write the eight low array-base words from
the header and zero the two high words. -/
def TdmaRegs.set_array_bases (s : RegState) (h : DmaHeader) : RegState :=
  let s := tdmaWrite s TDMA_ARRAYBASE0_L h.arraybase_0_l
  let s := tdmaWrite s TDMA_ARRAYBASE1_L h.arraybase_1_l
  let s := tdmaWrite s TDMA_ARRAYBASE2_L h.arraybase_2_l
  let s := tdmaWrite s TDMA_ARRAYBASE3_L h.arraybase_3_l
  let s := tdmaWrite s TDMA_ARRAYBASE4_L h.arraybase_4_l
  let s := tdmaWrite s TDMA_ARRAYBASE5_L h.arraybase_5_l
  let s := tdmaWrite s TDMA_ARRAYBASE6_L h.arraybase_6_l
  let s := tdmaWrite s TDMA_ARRAYBASE7_L h.arraybase_7_l
  let s := tdmaWrite s TDMA_ARRAYBASE0_H 0
  tdmaWrite s TDMA_ARRAYBASE1_H 0

/-- `TdmaRegs::reset_sync_id`. -/
def TdmaRegs.reset_sync_id (s : RegState) : RegState :=
  let s := tdmaWrite s TDMA_CTRL (1 <<< TDMA_CTRL_RESET_SYNCID_BIT)
  let s := tdmaWrite s TDMA_CTRL 0
  tdmaWrite s TDMA_INT_MASK 0xFFFF0000

/-- The CTRL word `TdmaRegs::fire_descriptor` assembles before the final write. -/
def tdmaFireCtrlWord (num_tdma : Nat) : Nat :=
  (1 <<< TDMA_CTRL_ENABLE_BIT) |||
  (1 <<< TDMA_CTRL_MODESEL_BIT) |||
  (num_tdma <<< TDMA_CTRL_DESNUM_BIT) |||
  (0x3 <<< TDMA_CTRL_BURSTLEN_BIT) |||
  (1 <<< TDMA_CTRL_FORCE_1ARRAY) |||
  (1 <<< TDMA_CTRL_INTRA_CMD_OFF) |||
  (1 <<< TDMA_CTRL_64BYTE_ALIGN_EN)

/-- `TdmaRegs::fire_descriptor`: the five-write start sequence. -/
def TdmaRegs.fire_descriptor (s : RegState) (desc_offset num_tdma : Nat) : RegState :=
  let s := tdmaWrite s TDMA_DES_BASE desc_offset
  let s := tdmaWrite s TDMA_DEBUG_MODE 0
  let s := tdmaWrite s TDMA_DCM_DISABLE 0
  let s := tdmaWrite s TDMA_INT_MASK TDMA_MASK_INIT
  tdmaWrite s TDMA_CTRL (tdmaFireCtrlWord num_tdma)

-- ===== TIU operations (tiu.rs) =====

/-- `TiuRegs::reset_id`. -/
def TiuRegs.reset_id (s : RegState) : RegState :=
  let v := tiuReadBd s 0xC
  let s := tiuWriteBd s 0xC (v ||| 0x1)
  let s := tiuWriteBd s 0xC (v &&& 0xFFFFFFFE)
  let v0 := tiuReadBd s 0
  let s := tiuWriteBd s 0
    (v0 &&& (0xFFFFFFFF ^^^ ((1 <<< BD_TPU_EN) ||| (1 <<< BD_DES_ADDR_VLD))))
  let v1 := tiuReadBd s 0
  tiuWriteBd s 0 (v1 ||| (1 <<< 1))

/-- `TiuRegs::fire_descriptor`. -/
def TiuRegs.fire_descriptor (s : RegState) (desc_offset : Nat) (_num_bd : Nat) : RegState :=
  let desc_addr := desc_offset <<< BDC_ENGINE_CMD_ALIGNED_BIT
  let s := tiuWriteBd s 0x4 (desc_addr &&& 0xFFFFFFFF)
  let v8 := tiuReadBd s 0x8
  let s := tiuWriteBd s 0x8 ((v8 &&& 0xFFFFFF00) ||| ((desc_addr >>> 32) &&& 0xFF))
  let vC := tiuReadBd s 0xC
  let s := tiuWriteBd s 0xC (vC ||| (1 <<< 11))
  let v0 := tiuReadBd s 0
  let v0 := v0 &&& (0xFFFFFFFF ^^^ 0x3FC00000)
  let s := tiuWriteBd s 0 (v0 ||| (3 <<< 22))
  let v0 := tiuReadBd s 0
  tiuWriteBd s 0
    (v0 ||| (1 <<< BD_DES_ADDR_VLD) ||| (1 <<< BD_INTR_ENABLE) ||| (1 <<< BD_TPU_EN))

-- ===== Platform operations (platform.rs) =====

/-- `pmu_enable` from platform.rs. -/
def pmu_enable (s : RegState) (pmubuf_addr_p pmubuf_size : Nat)
    (event : TpuPmuEvent) : RegState :=
  let buf_addr := pmubuf_addr_p >>> 4
  let buf_size := pmubuf_size >>> 4
  let s := tdmaWrite s TPUPMU_BUFBASE buf_addr
  let s := tdmaWrite s TPUPMU_BUFSIZE buf_size
  let reg_value :=
    (0x1 ||| 0x8 ||| 0x10 ||| (event.val <<< 5) ||| (0x3 <<< 8) ||| (0x1 <<< 10))
      &&& 0x0000FFFF
  tdmaWrite s TPUPMU_CTRL reg_value

/-- `pmu_disable` from platform.rs: clear bit 0 of the PMU CTRL register. -/
def pmu_disable (s : RegState) : RegState :=
  let reg_value := tdmaRead s TPUPMU_CTRL
  tdmaWrite s TPUPMU_CTRL (reg_value &&& 0xFFFFFFFE)

/-- `resync_cmd_id` from platform.rs. -/
def resync_cmd_id (s : RegState) : RegState :=
  TdmaRegs.reset_sync_id (TiuRegs.reset_id s)

/-- `TpuRegBackup` from platform.rs. -/
structure TpuRegBackup where
  tdma_int_mask : Nat := 0
  tdma_sync_status : Nat := 0
  tiu_ctrl_base_address : Nat := 0
  tdma_arraybase0_l : Nat := 0
  tdma_arraybase1_l : Nat := 0
  tdma_arraybase2_l : Nat := 0
  tdma_arraybase3_l : Nat := 0
  tdma_arraybase4_l : Nat := 0
  tdma_arraybase5_l : Nat := 0
  tdma_arraybase6_l : Nat := 0
  tdma_arraybase7_l : Nat := 0
  tdma_arraybase0_h : Nat := 0
  tdma_arraybase1_h : Nat := 0
  tdma_des_base : Nat := 0
  tdma_dbg_mode : Nat := 0
  tdma_dcm_disable : Nat := 0
  tdma_ctrl : Nat := 0
  deriving DecidableEq, Repr

/-- `backup_registers` from platform.rs: pure reads into the backup record. -/
def backup_registers (s : RegState) : TpuRegBackup where
  tdma_int_mask := tdmaRead s TDMA_INT_MASK
  tdma_sync_status := tdmaRead s TDMA_SYNC_STATUS
  tiu_ctrl_base_address := tiuReadBd s 0
  tdma_arraybase0_l := tdmaRead s TDMA_ARRAYBASE0_L
  tdma_arraybase1_l := tdmaRead s TDMA_ARRAYBASE1_L
  tdma_arraybase2_l := tdmaRead s TDMA_ARRAYBASE2_L
  tdma_arraybase3_l := tdmaRead s TDMA_ARRAYBASE3_L
  tdma_arraybase4_l := tdmaRead s TDMA_ARRAYBASE4_L
  tdma_arraybase5_l := tdmaRead s TDMA_ARRAYBASE5_L
  tdma_arraybase6_l := tdmaRead s TDMA_ARRAYBASE6_L
  tdma_arraybase7_l := tdmaRead s TDMA_ARRAYBASE7_L
  tdma_arraybase0_h := tdmaRead s TDMA_ARRAYBASE0_H
  tdma_arraybase1_h := tdmaRead s TDMA_ARRAYBASE1_H
  tdma_des_base := tdmaRead s TDMA_DES_BASE
  tdma_dbg_mode := tdmaRead s TDMA_DEBUG_MODE
  tdma_dcm_disable := tdmaRead s TDMA_DCM_DISABLE
  tdma_ctrl := tdmaRead s TDMA_CTRL

/-- `restore_registers` from platform.rs.  Note the source writes back every
captured register except `TDMA_CTRL`, whose backup field is never used. -/
def restore_registers (s : RegState) (b : TpuRegBackup) : RegState :=
  let s := tdmaWrite s TDMA_INT_MASK b.tdma_int_mask
  let s := tdmaWrite s TDMA_SYNC_STATUS b.tdma_sync_status
  let s := tiuWriteBd s 0 b.tiu_ctrl_base_address
  let s := tdmaWrite s TDMA_ARRAYBASE0_L b.tdma_arraybase0_l
  let s := tdmaWrite s TDMA_ARRAYBASE1_L b.tdma_arraybase1_l
  let s := tdmaWrite s TDMA_ARRAYBASE2_L b.tdma_arraybase2_l
  let s := tdmaWrite s TDMA_ARRAYBASE3_L b.tdma_arraybase3_l
  let s := tdmaWrite s TDMA_ARRAYBASE4_L b.tdma_arraybase4_l
  let s := tdmaWrite s TDMA_ARRAYBASE5_L b.tdma_arraybase5_l
  let s := tdmaWrite s TDMA_ARRAYBASE6_L b.tdma_arraybase6_l
  let s := tdmaWrite s TDMA_ARRAYBASE7_L b.tdma_arraybase7_l
  let s := tdmaWrite s TDMA_ARRAYBASE0_H b.tdma_arraybase0_h
  let s := tdmaWrite s TDMA_ARRAYBASE1_H b.tdma_arraybase1_h
  let s := tdmaWrite s TDMA_DES_BASE b.tdma_des_base
  let s := tdmaWrite s TDMA_DEBUG_MODE b.tdma_dbg_mode
  tdmaWrite s TDMA_DCM_DISABLE b.tdma_dcm_disable

-- ===== TPU errors, runtime and device (error.rs, platform.rs, device.rs) =====

/-- `TpuError` from error.rs. -/
inductive TpuError where
  | Timeout
  | InvalidDmabuf
  | TdmaError (v : Nat)
  | TiuError (v : Nat)
  | NotInit
  | Busy
  | Interrupted
  | PmuBufferNotAligned
  | DmabufNotAligned
  deriving DecidableEq, Repr

/-- `TpuRuntimeState` from platform.rs. -/
structure TpuRuntimeState where
  irq_received : Bool := false
  reg_backup : TpuRegBackup := {}
  deriving DecidableEq, Repr

/-- `poll_cmdbuf_done` from platform.rs.  The TIU poll loop re-reads a
hardware register that nothing in the model changes, and the caller's
timeout predicate is constant while the loop spins, so the loop either
exits on its first iteration, fails with `Timeout`, or spins forever;
`none` models the diverging case. -/
def poll_cmdbuf_done (s : RegState) (id_node : CmdIdNode)
    (timeout_now : Bool) : Option (Except TpuError Unit × RegState) :=
  if id_node.bd_cmd_id > 0 then
    let reg_val := tiuReadBd s 0
    let current_id := (reg_val >>> 6) &&& 0xFFFF
    let int_flag := reg_val &&& 2 ≠ 0
    if current_id ≥ id_node.bd_cmd_id ∧ int_flag then
      some (Except.ok (), tiuWriteBd s 0 (reg_val ||| 2))
    else if timeout_now then
      some (Except.error TpuError.Timeout, s)
    else
      none
  else
    some (Except.ok (), s)

/-- The busy-wait `wait_irq` closure of `TpuDevice::run_dmabuf_internal`,
as a function of the shared counter cell: the counter advances to at
least 10001 (one step at a time, capped at the limit), and the call fails
with `Timeout` exactly when the counter reaches the limit. -/
def waitIrqStep (limit c : Nat) : Except TpuError Nat :=
  let c' := if c ≥ limit then c else max (c + 1) 10001
  if c' ≥ limit then Except.error TpuError.Timeout else Except.ok c'

/-- The `timeout_checker` closure of `TpuDevice::run_dmabuf_internal`. -/
def timeoutChecker (limit c : Nat) : Bool := c > limit

/-- `TIMEOUT_LIMIT` used by `run_dmabuf_internal` (`1_000_000_000`). -/
def TIMEOUT_LIMIT : Nat := 1000000000

/-- A user-prepared DMA command buffer as seen through its virtual address:
the header followed by the CPU sync descriptors. -/
structure Dmabuf where
  header : DmaHeader
  descs : List CpuSyncDesc

/-- One iteration of the descriptor loop of `run_dmabuf` (platform.rs),
folded over the list of CPU sync descriptors; carries the register state,
the runtime and the timeout counter. -/
def runDescLoop (limit : Nat) :
    List CpuSyncDesc → RegState → TpuRuntimeState → Nat →
    Option (Except TpuError Unit × RegState × TpuRuntimeState × Nat)
  | [], s, rt, c => some (Except.ok (), s, rt, c)
  | desc :: rest, s, rt, c =>
    let bd_num := desc.num_bd &&& 0xFFFF
    let tdma_num := desc.num_gdma &&& 0xFFFF
    let s := resync_cmd_id s
    let rt := { rt with irq_received := false }
    let id_node : CmdIdNode := { bd_cmd_id := bd_num, tdma_cmd_id := tdma_num }
    let s := if bd_num > 0 then TiuRegs.fire_descriptor s desc.offset_bd bd_num else s
    let s := if tdma_num > 0 then TdmaRegs.fire_descriptor s desc.offset_gdma tdma_num else s
    match (if tdma_num > 0 then waitIrqStep limit c else Except.ok c) with
    | Except.error e => some (Except.error e, s, rt, c)
    | Except.ok c =>
      match poll_cmdbuf_done s id_node (timeoutChecker limit c) with
      | none => none
      | some (Except.error e, s) => some (Except.error e, s, rt, c)
      | some (Except.ok _, s) => runDescLoop limit rest s rt c

/-- `run_dmabuf` from platform.rs.  `none` models divergence of the TIU
polling loop; otherwise the result carries the outcome together with the
final register state, runtime and timeout counter. -/
def run_dmabuf (s : RegState) (rt : TpuRuntimeState) (buf : Dmabuf)
    (dmabuf_paddr : Nat) (limit c : Nat) :
    Option (Except TpuError Unit × RegState × TpuRuntimeState × Nat) :=
  let header := buf.header
  if ¬header.is_valid then
    some (Except.error TpuError.InvalidDmabuf, s, rt, c)
  else if dmabuf_paddr &&& 0xFFF ≠ 0 then
    some (Except.error TpuError.DmabufNotAligned, s, rt, c)
  else
    let rt := { rt with irq_received := false }
    let s := TdmaRegs.set_array_bases s header
    let pmu_enabled := header.has_valid_pmu
    let pmubuf_addr := dmabuf_paddr + header.pmubuf_offset
    let s := if pmu_enabled then
        pmu_enable s pmubuf_addr header.pmubuf_size TpuPmuEvent.TdmaBandwidth
      else s
    let descs := (List.range header.cpu_desc_count).map
      (fun i => buf.descs.getD i default)
    match runDescLoop limit descs s rt c with
    | none => none
    | some (Except.error e, s, rt, c) => some (Except.error e, s, rt, c)
    | some (Except.ok _, s, rt, c) =>
      if pmu_enabled then
        let rt := { rt with irq_received := false }
        let s := pmu_disable s
        match waitIrqStep limit c with
        | Except.error e => some (Except.error e, s, rt, c)
        | Except.ok c => some (Except.ok (), s, rt, c)
      else
        some (Except.ok (), s, rt, c)

/-- `TpuState` from device.rs. -/
inductive TpuState where
  | Uninit
  | Idle
  | Running
  | Suspended
  deriving DecidableEq, Repr

/-- `TpuTaskNode` from device.rs (the submit path is the only variant). -/
structure TpuTaskNode where
  pid : Nat := 0
  seq_no : Nat
  dmabuf_fd : Int
  dmabuf_vaddr : Nat
  dmabuf_paddr : Nat
  ret : Int := 0
  deriving DecidableEq, Repr

/-- The mutex-protected `TpuDeviceInner` from device.rs: register banks,
device state, runtime and the two task queues. -/
structure TpuDev where
  regs : RegState
  state : TpuState
  runtime : TpuRuntimeState
  task_list : List TpuTaskNode
  done_list : List TpuTaskNode

/-- `TpuDevice::run_dmabuf_internal` from device.rs: guard on the state,
mark `Running`, run with a fresh counter, and restore `Idle`.  The memory
oracle `mem` gives the buffer contents at a virtual address. -/
def run_dmabuf_internal (mem : Nat → Dmabuf) (d : TpuDev)
    (dmabuf_vaddr dmabuf_paddr : Nat) :
    Option (Except TpuError Unit × TpuDev) :=
  if d.state ≠ TpuState.Idle ∧ d.state ≠ TpuState.Uninit then
    some (Except.error TpuError.NotInit, d)
  else
    let d := { d with state := TpuState.Running }
    match run_dmabuf d.regs d.runtime (mem dmabuf_vaddr) dmabuf_paddr TIMEOUT_LIMIT 0 with
    | none => none
    | some (res, s, rt, _) =>
      some (res, { d with regs := s, runtime := rt, state := TpuState.Idle })

/-- The body of the `while let Some(task)` drain loop of
`TpuDevice::process_task_locked`, recursing on the pending tasks. -/
def drainTasks (mem : Nat → Dmabuf) (d : TpuDev) :
    List TpuTaskNode → Option TpuDev
  | [] => some d
  | task :: rest =>
    let d := { d with regs := resync_cmd_id d.regs
                      runtime := { d.runtime with irq_received := false } }
    match run_dmabuf_internal mem d task.dmabuf_vaddr task.dmabuf_paddr with
    | none => none
    | some (res, d) =>
      let ret : Int := match res with | Except.ok _ => 0 | Except.error _ => -1
      drainTasks mem
        { d with done_list := d.done_list ++ [{ task with ret := ret }] } rest

/-- `TpuDevice::process_task_locked` from device.rs: drain `task_list`,
running each task and pushing it (with its result) onto `done_list`. -/
def process_task_locked (mem : Nat → Dmabuf) (d : TpuDev) : Option TpuDev :=
  drainTasks mem { d with task_list := [] } d.task_list

/-- `TpuDevice::suspend` from device.rs: a no-op from `Suspended`,
otherwise capture the registers and move to `Suspended`; never fails. -/
def TpuDev.suspend (d : TpuDev) : Except TpuError Unit × TpuDev :=
  if d.state = TpuState.Suspended then
    (Except.ok (), d)
  else
    (Except.ok (),
     { d with
       runtime := { d.runtime with reg_backup := backup_registers d.regs }
       state := TpuState.Suspended })

/-- `TpuDevice::resume` from device.rs: only valid from `Suspended`. -/
def TpuDev.resume (d : TpuDev) : Except TpuError Unit × TpuDev :=
  if d.state ≠ TpuState.Suspended then
    (Except.error TpuError.NotInit, d)
  else
    (Except.ok (),
     { d with
       regs := restore_registers d.regs d.runtime.reg_backup
       state := TpuState.Idle })

/-- Locate and remove the first task with the given `seq_no`, as the
index search plus `remove(idx)` of `TpuDevice::wait_dmabuf` does. -/
def findRemove (seq : Nat) : List TpuTaskNode →
    Option (TpuTaskNode × List TpuTaskNode)
  | [] => none
  | t :: rest =>
    if t.seq_no = seq then some (t, rest)
    else match findRemove seq rest with
      | some (u, l) => some (u, t :: l)
      | none => none

/-- `TpuDevice::wait_dmabuf` from device.rs: on a hit remove the entry and
report its `ret`; on a miss write back `-1` and fail.  The middle component
is the `ret` value written into the user's argument struct. -/
def wait_dmabuf (d : TpuDev) (seq : Nat) : Except TpuError Nat × Int × TpuDev :=
  match findRemove seq d.done_list with
  | some (task, rest) =>
    (Except.ok 0, task.ret, { d with done_list := rest })
  | none =>
    (Except.error TpuError.NotInit, -1, d)

-- ===== ION allocator (ion/types.rs, heap.rs, buffer.rs, device.rs) =====

/-- `IonHeapType` from ion/types.rs (`repr(u32)`: System=0, DmaCoherent=1,
Carveout=2). -/
inductive IonHeapType where
  | System
  | DmaCoherent
  | Carveout
  deriving DecidableEq, Repr

/-- The `repr(u32)` discriminant of an `IonHeapType`. -/
def IonHeapType.val : IonHeapType → Nat
  | .System => 0
  | .DmaCoherent => 1
  | .Carveout => 2

/-- `IonError` from ion/error.rs. -/
inductive IonError where
  | InvalidArg
  | NoMemory
  | InvalidBuffer
  | BufferExists
  | BufferNotFound
  | InvalidHeap
  | NotSupported
  | Internal
  deriving DecidableEq, Repr

/-- The generic VFS error codes the ion device surfaces (`axerrno::AxError`,
restricted to the variants this driver produces). -/
inductive AxError where
  | InvalidInput
  | NoMemory
  | NotFound
  | AlreadyExists
  | Unsupported
  | Interrupted
  | TooManyOpenFiles
  deriving DecidableEq, Repr

/-- `From<IonError> for AxError` from ion/error.rs. -/
def ionErrToAx : IonError → AxError
  | .InvalidArg => .InvalidInput
  | .NoMemory => .NoMemory
  | .InvalidBuffer => .NotFound
  | .BufferNotFound => .NotFound
  | .BufferExists => .AlreadyExists
  | .InvalidHeap => .Unsupported
  | .NotSupported => .Unsupported
  | .Internal => .Interrupted

/-- `axdma::DMAInfo`: a CPU virtual pointer plus the bus/physical address. -/
structure DmaInfo where
  cpuAddr : Nat
  busAddr : Nat
  deriving DecidableEq, Repr

/-- `IonBuffer` from ion/types.rs (atomics flattened to plain values). -/
structure IonBuffer where
  handle : Nat
  dmaInfo : DmaInfo
  size : Nat
  heapType : IonHeapType
  flags : Nat
  refCount : Nat
  mapped : Bool
  deriving DecidableEq, Repr

/-- The process-wide ion state: the registry map of `IonBufferManager`
(an association list keyed by handle), the `IonHandle::new` counter, and a
log of the `(size, align)` layouts passed to the coherent allocator. -/
structure IonState where
  registry : List (Nat × IonBuffer)
  nextHandle : Nat
  allocs : List (Nat × Nat)

/-- Registry lookup by handle (`BTreeMap::get` on the buffer map). -/
def lookupReg (reg : List (Nat × IonBuffer)) (handle : Nat) : Option IonBuffer :=
  match reg with
  | [] => none
  | (h, b) :: rest => if h = handle then some b else lookupReg rest handle

/-- `Layout::from_size_align(size, align)` succeeds iff `align` is a power
of two and `size` rounded up to `align` fits in `isize`. -/
def layoutValid (size align : Nat) : Bool :=
  decide (∃ k : Fin 64, align = 2 ^ k.val) && size + (align - 1) ≤ 2 ^ 63 - 1

/-- `IonHeapManager::alloc_dma_buffer`: build the layout and call the
coherent allocator (the oracle `alloc`, keyed by size and align; `none`
models allocator failure).  Every allocator call is logged in `allocs`. -/
def alloc_dma_buffer (alloc : Nat → Nat → Option DmaInfo) (st : IonState)
    (size align : Nat) : Except IonError DmaInfo × IonState :=
  if layoutValid size align then
    let st := { st with allocs := st.allocs ++ [(size, align)] }
    match alloc size align with
    | some info => (Except.ok info, st)
    | none => (Except.error IonError.NoMemory, st)
  else
    (Except.error IonError.InvalidArg, st)

/-- `IonHeapManager::alloc_buffer`: validate, allocate from the backing
coherent allocator (all three heap types use it), and wrap the result in a
fresh `IonBuffer` with a newly minted handle. -/
def alloc_buffer (alloc : Nat → Nat → Option DmaInfo) (st : IonState)
    (size align : Nat) (heap_type : IonHeapType) (flags : Nat) :
    Except IonError IonBuffer × IonState :=
  if size = 0 then
    (Except.error IonError.InvalidArg, st)
  else
    let r := match heap_type with
      | IonHeapType.System => alloc_dma_buffer alloc st size align
      | IonHeapType.DmaCoherent => alloc_dma_buffer alloc st size align
      | IonHeapType.Carveout => alloc_dma_buffer alloc st size align
    match r with
    | (Except.error e, st) => (Except.error e, st)
    | (Except.ok info, st) =>
      let handle := u32 st.nextHandle
      let buf : IonBuffer :=
        { handle := handle, dmaInfo := info, size := size,
          heapType := heap_type, flags := flags, refCount := 1, mapped := false }
      (Except.ok buf, { st with nextHandle := st.nextHandle + 1 })

/-- `IonBufferManager::register_buffer`: insert keyed on the buffer's
handle; a duplicate key fails with `BufferExists`. -/
def register_buffer (st : IonState) (buf : IonBuffer) :
    Except IonError Unit × IonState :=
  match lookupReg st.registry buf.handle with
  | some _ => (Except.error IonError.BufferExists, st)
  | none => (Except.ok (), { st with registry := st.registry ++ [(buf.handle, buf)] })

/-- `IonAllocData` from ion/types.rs; `paddr` is the write-back extension
field `handle_alloc` fills at the end of the struct. -/
structure IonAllocData where
  len : Nat
  align : Nat
  heap_id_mask : Nat
  flags : Nat
  fd : Nat
  unused : Nat
  paddr : Nat
  deriving DecidableEq, Repr

/-- The heap-type selection chain at the top of `IonDevice::handle_alloc`:
DmaCoherent, then Carveout, then System, by mask bit; `none` when none of
the three bits is set. -/
def chooseHeap (heap_id_mask : Nat) : Option IonHeapType :=
  if heap_id_mask &&& (1 <<< IonHeapType.DmaCoherent.val) ≠ 0 then
    some IonHeapType.DmaCoherent
  else if heap_id_mask &&& (1 <<< IonHeapType.Carveout.val) ≠ 0 then
    some IonHeapType.Carveout
  else if heap_id_mask &&& (1 <<< IonHeapType.System.val) ≠ 0 then
    some IonHeapType.System
  else
    none

/-- `IonDevice::handle_alloc`: choose the heap, allocate (with align 1),
register, create the buffer file (the oracle `newFd` models
`add_file_like`; `none` is fd-table exhaustion) and write back `fd` and
`paddr` into the argument struct. -/
def handle_alloc (alloc : Nat → Nat → Option DmaInfo) (newFd : Option Nat)
    (st : IonState) (d : IonAllocData) : Except AxError IonAllocData × IonState :=
  match chooseHeap d.heap_id_mask with
  | none => (Except.error AxError.InvalidInput, st)
  | some heap_type =>
    match alloc_buffer alloc st d.len 1 heap_type d.flags with
    | (Except.error e, st) => (Except.error (ionErrToAx e), st)
    | (Except.ok buf, st) =>
      match register_buffer st buf with
      | (Except.error e, st) => (Except.error (ionErrToAx e), st)
      | (Except.ok _, st) =>
        match newFd with
        | none => (Except.error AxError.TooManyOpenFiles, st)
        | some fd =>
          (Except.ok { d with fd := u32 fd, paddr := buf.dmaInfo.busAddr }, st)

/-- `starry_core::vfs::DeviceMmap`, restricted to the shapes the ion
device produces: a physical range (start, size) or no mapping. -/
inductive DeviceMmap where
  | Physical (start size : Nat)
  | NoMap
  deriving DecidableEq, Repr

/-- Mark the buffer with the given handle as mapped (`IonBuffer::set_mapped`
through the registry). -/
def setMapped (reg : List (Nat × IonBuffer)) (handle : Nat) :
    List (Nat × IonBuffer) :=
  reg.map (fun p => if p.1 = handle then (p.1, { p.2 with mapped := true }) else p)

/-- `IonDevice::mmap` from ion/device.rs: reinterpret `offset` as a handle
(truncated to `u32`), look the buffer up, return its physical range
(capped by `length` when `length > 0`) and mark it mapped; a missing
handle yields no mapping. -/
def ion_mmap (st : IonState) (offset length : Nat) : DeviceMmap × IonState :=
  let handle := u32 offset
  match lookupReg st.registry handle with
  | some buffer =>
    let size := if length > 0 then min length buffer.size else buffer.size
    (DeviceMmap.Physical buffer.dmaInfo.busAddr size,
     { st with registry := setMapped st.registry handle })
  | none => (DeviceMmap.NoMap, st)

-- ===== Helper lemmas on the register model =====

@[simp]
theorem u32_u32 (v : Nat) : u32 (u32 v) = u32 v := by
  simp [u32, Nat.mod_mod]

theorem u32_lt (v : Nat) : u32 v < 4294967296 :=
  Nat.mod_lt v (by norm_num)

@[simp]
theorem tdmaRead_tdmaWrite (s : RegState) (off v o : Nat) :
    tdmaRead (tdmaWrite s off v) o = if o = off then u32 v else tdmaRead s o := by
  by_cases h : o = off <;> simp [tdmaRead, tdmaWrite, h]

@[simp]
theorem tdmaRead_tiuWrite (s : RegState) (off v o : Nat) :
    tdmaRead (tiuWrite s off v) o = tdmaRead s o := by
  simp [tdmaRead, tiuWrite]

@[simp]
theorem tiuRead_tiuWrite (s : RegState) (off v o : Nat) :
    tiuRead (tiuWrite s off v) o = if o = off then u32 v else tiuRead s o := by
  by_cases h : o = off <;> simp [tiuRead, tiuWrite, h]

@[simp]
theorem tiuRead_tdmaWrite (s : RegState) (off v o : Nat) :
    tiuRead (tdmaWrite s off v) o = tiuRead s o := by
  simp [tiuRead, tdmaWrite]

@[simp]
theorem tdmaWrite_trace (s : RegState) (off v : Nat) :
    (tdmaWrite s off v).trace = s.trace ++ [Wr.tdma off (u32 v)] := rfl

@[simp]
theorem tiuWrite_trace (s : RegState) (off v : Nat) :
    (tiuWrite s off v).trace = s.trace ++ [Wr.tiu off (u32 v)] := rfl

theorem tdmaRead_lt (s : RegState) (off : Nat) : tdmaRead s off < 4294967296 :=
  u32_lt _

@[simp]
theorem u32_tdmaRead (s : RegState) (off : Nat) :
    u32 (tdmaRead s off) = tdmaRead s off := by
  simp [tdmaRead]

@[simp]
theorem u32_tiuRead (s : RegState) (off : Nat) :
    u32 (tiuRead s off) = tiuRead s off := by
  simp [tiuRead]

-- ===== C8 =====

/-- C8: `TdmaRegs::fire_descriptor(desc_off, n)` performs exactly, and in
this order, the writes: low 32 bits of `desc_off` to DES_BASE (0x4), 0 to
DEBUG_MODE (0xA0), 0 to DCM_DISABLE (0xA4), 0x20 to INT_MASK (0x8), and
finally `(1<<0) | (1<<1) | (n<<16) | (0x3<<8) | (1<<5) | (1<<13) | (1<<10)`
(as a 32-bit value) to CTRL (0x0). -/
theorem C8_tdma_fire_descriptor_write_sequence (s : RegState) (desc_off n : Nat) :
    (TdmaRegs.fire_descriptor s desc_off n).trace = s.trace ++
      [Wr.tdma 0x4 (desc_off % 4294967296),
       Wr.tdma 0xA0 0,
       Wr.tdma 0xA4 0,
       Wr.tdma 0x8 0x20,
       Wr.tdma 0x0
         (u32 ((1 <<< 0) ||| (1 <<< 1) ||| (n <<< 16) ||| (0x3 <<< 8) |||
               (1 <<< 5) ||| (1 <<< 13) ||| (1 <<< 10)))] := by
  simp [TdmaRegs.fire_descriptor, tdmaFireCtrlWord, TDMA_DES_BASE,
    TDMA_DEBUG_MODE, TDMA_DCM_DISABLE, TDMA_INT_MASK, TDMA_CTRL,
    TDMA_MASK_INIT, TDMA_CTRL_ENABLE_BIT, TDMA_CTRL_MODESEL_BIT,
    TDMA_CTRL_DESNUM_BIT, TDMA_CTRL_BURSTLEN_BIT, TDMA_CTRL_FORCE_1ARRAY,
    TDMA_CTRL_INTRA_CMD_OFF, TDMA_CTRL_64BYTE_ALIGN_EN, u32]

-- ===== C9 =====

/-- C9: `pmu_disable` clears bit 0 of the PMU CTRL register (offset 0x200)
and preserves every other bit, and a second `pmu_disable` immediately
after the first leaves the register value unchanged, for every starting
register state. -/
theorem C9_pmu_disable_idempotent (s : RegState) :
    (tdmaRead (pmu_disable s) TPUPMU_CTRL).testBit 0 = false ∧
    (∀ i : Nat, i ≠ 0 →
      (tdmaRead (pmu_disable s) TPUPMU_CTRL).testBit i =
        (tdmaRead s TPUPMU_CTRL).testBit i) ∧
    tdmaRead (pmu_disable (pmu_disable s)) TPUPMU_CTRL =
      tdmaRead (pmu_disable s) TPUPMU_CTRL := by
  have hv : tdmaRead s TPUPMU_CTRL < 4294967296 := tdmaRead_lt s _
  have hgen : ∀ t : RegState, tdmaRead (pmu_disable t) TPUPMU_CTRL =
      tdmaRead t TPUPMU_CTRL &&& 0xFFFFFFFE := by
    intro t
    have h : tdmaRead t TPUPMU_CTRL &&& 0xFFFFFFFE < 4294967296 :=
      Nat.lt_of_le_of_lt Nat.and_le_left (tdmaRead_lt t _)
    simp only [pmu_disable, tdmaRead_tdmaWrite, if_pos rfl, u32]
    exact Nat.mod_eq_of_lt h
  have hread := hgen s
  have hmask : ∀ i : Nat, i < 32 → i ≠ 0 → Nat.testBit 0xFFFFFFFE i = true := by
    decide
  refine ⟨?_, ?_, ?_⟩
  · rw [hread, Nat.testBit_land]
    simp
  · intro i hi
    rw [hread, Nat.testBit_land]
    by_cases h32 : i < 32
    · simp [hmask i h32 hi]
    · have hbig : (2:Nat) ^ 32 ≤ 2 ^ i :=
        Nat.pow_le_pow_right (by norm_num) (Nat.le_of_not_lt h32)
      rw [Nat.testBit_eq_false_of_lt (Nat.lt_of_lt_of_le hv hbig)]
      simp
  · rw [hgen (pmu_disable s), hread, Nat.land_assoc, Nat.and_self]

/-- Witness for C9 at a concrete register state holding `0b1011` in the
PMU CTRL register. -/
theorem C9_pmu_disable_idempotent_witness :
    (tdmaRead (pmu_disable
        (RegState.mk (fun o => if o = 0x200 then 11 else 0) (fun _ => 0) []))
      TPUPMU_CTRL).testBit 3 =
    (tdmaRead (RegState.mk (fun o => if o = 0x200 then 11 else 0) (fun _ => 0) [])
      TPUPMU_CTRL).testBit 3 :=
  (C9_pmu_disable_idempotent
    (RegState.mk (fun o => if o = 0x200 then 11 else 0) (fun _ => 0) [])).2.1
    3 (by decide)

-- ===== Concrete fixtures used by witnesses and counterexamples =====

/-- A register state with pairwise distinct contents. -/
def regsA : RegState := RegState.mk (fun o => o + 1) (fun o => o + 2) []

/-- The all-zero register state. -/
def regsZero : RegState := RegState.mk (fun _ => 0) (fun _ => 0) []

/-- An idle TPU device over `regsA`. -/
def devA : TpuDev :=
  { regs := regsA, state := TpuState.Idle, runtime := {},
    task_list := [], done_list := [] }

/-- A TPU device that was never initialised. -/
def devU : TpuDev :=
  { regs := regsZero, state := TpuState.Uninit, runtime := {},
    task_list := [], done_list := [] }

-- ===== C2 =====

/-- C2 counterexample: the TDMA control word is captured by
`backup_registers` but `restore_registers` never writes it back: starting
from registers holding 1 in CTRL, suspending, and resuming on zeroed
hardware leaves CTRL at 0, not at the captured value. -/
theorem C2_ctrl_not_restored_counterexample :
    (backup_registers regsA).tdma_ctrl = 1 ∧
    tdmaRead (restore_registers regsZero (backup_registers regsA)) TDMA_CTRL = 0 := by
  decide

/-- C2 (amended): every register of the fixed backup set except the TDMA
control word — interrupt mask, sync status, array-base 0..7 low and 0..1
high, descriptor base, debug mode, DCM disable, and the TIU BD control
word at offset 0 — is written back by `restore_registers` with exactly
the value `backup_registers` captured; the TDMA control word is captured
but never restored.  `suspend()` stores the capture in the runtime and
`resume()` feeds it back to `restore_registers` unchanged. -/
theorem C2_restore_writes_back_captured_values (s0 s1 : RegState) :
    tdmaRead (restore_registers s1 (backup_registers s0)) TDMA_INT_MASK =
      (backup_registers s0).tdma_int_mask ∧
    tdmaRead (restore_registers s1 (backup_registers s0)) TDMA_SYNC_STATUS =
      (backup_registers s0).tdma_sync_status ∧
    tiuReadBd (restore_registers s1 (backup_registers s0)) 0 =
      (backup_registers s0).tiu_ctrl_base_address ∧
    tdmaRead (restore_registers s1 (backup_registers s0)) TDMA_ARRAYBASE0_L =
      (backup_registers s0).tdma_arraybase0_l ∧
    tdmaRead (restore_registers s1 (backup_registers s0)) TDMA_ARRAYBASE1_L =
      (backup_registers s0).tdma_arraybase1_l ∧
    tdmaRead (restore_registers s1 (backup_registers s0)) TDMA_ARRAYBASE2_L =
      (backup_registers s0).tdma_arraybase2_l ∧
    tdmaRead (restore_registers s1 (backup_registers s0)) TDMA_ARRAYBASE3_L =
      (backup_registers s0).tdma_arraybase3_l ∧
    tdmaRead (restore_registers s1 (backup_registers s0)) TDMA_ARRAYBASE4_L =
      (backup_registers s0).tdma_arraybase4_l ∧
    tdmaRead (restore_registers s1 (backup_registers s0)) TDMA_ARRAYBASE5_L =
      (backup_registers s0).tdma_arraybase5_l ∧
    tdmaRead (restore_registers s1 (backup_registers s0)) TDMA_ARRAYBASE6_L =
      (backup_registers s0).tdma_arraybase6_l ∧
    tdmaRead (restore_registers s1 (backup_registers s0)) TDMA_ARRAYBASE7_L =
      (backup_registers s0).tdma_arraybase7_l ∧
    tdmaRead (restore_registers s1 (backup_registers s0)) TDMA_ARRAYBASE0_H =
      (backup_registers s0).tdma_arraybase0_h ∧
    tdmaRead (restore_registers s1 (backup_registers s0)) TDMA_ARRAYBASE1_H =
      (backup_registers s0).tdma_arraybase1_h ∧
    tdmaRead (restore_registers s1 (backup_registers s0)) TDMA_DES_BASE =
      (backup_registers s0).tdma_des_base ∧
    tdmaRead (restore_registers s1 (backup_registers s0)) TDMA_DEBUG_MODE =
      (backup_registers s0).tdma_dbg_mode ∧
    tdmaRead (restore_registers s1 (backup_registers s0)) TDMA_DCM_DISABLE =
      (backup_registers s0).tdma_dcm_disable := by
  refine ⟨?_, ?_, ?_, ?_, ?_, ?_, ?_, ?_, ?_, ?_, ?_, ?_, ?_, ?_, ?_, ?_⟩ <;>
    simp [restore_registers, backup_registers, tiuReadBd, tiuWriteBd,
      TDMA_INT_MASK, TDMA_SYNC_STATUS, TDMA_ARRAYBASE0_L, TDMA_ARRAYBASE1_L,
      TDMA_ARRAYBASE2_L, TDMA_ARRAYBASE3_L, TDMA_ARRAYBASE4_L,
      TDMA_ARRAYBASE5_L, TDMA_ARRAYBASE6_L, TDMA_ARRAYBASE7_L,
      TDMA_ARRAYBASE0_H, TDMA_ARRAYBASE1_H, TDMA_DES_BASE, TDMA_DEBUG_MODE,
      TDMA_DCM_DISABLE, BD_CTRL_BASE_ADDR, u32_tdmaRead, u32_tiuRead]

-- ===== C3 =====

/-- C3 counterexample: `suspend()` invoked on an uninitialised device does
not fail — it returns success and moves the state to `Suspended`. -/
theorem C3_suspend_from_uninit_succeeds_counterexample :
    devU.state = TpuState.Uninit ∧
    (TpuDev.suspend devU).1 = Except.ok () ∧
    (TpuDev.suspend devU).2.state = TpuState.Suspended :=
  ⟨rfl, rfl, rfl⟩

/-- C3 (amended): `suspend()` succeeds from every state: from `Suspended`
it is an idempotent success that changes nothing, and from any other
state (`Uninitialized`, `Idle` or `Running` alike) it captures the
registers into the backup and sets the state to `Suspended`. -/
theorem C3_suspend_always_succeeds (d : TpuDev) :
    (d.suspend).1 = Except.ok () ∧
    (d.state = TpuState.Suspended → (d.suspend).2 = d) ∧
    (d.state ≠ TpuState.Suspended →
      (d.suspend).2 =
        { d with
          runtime := { d.runtime with reg_backup := backup_registers d.regs }
          state := TpuState.Suspended }) := by
  by_cases hs : d.state = TpuState.Suspended <;> simp [TpuDev.suspend, hs]

/-- Witness for C3 at the concrete idle device `devA`. -/
theorem C3_suspend_always_succeeds_witness :
    (devA.suspend).2 =
      { devA with
        runtime := { devA.runtime with reg_backup := backup_registers devA.regs }
        state := TpuState.Suspended } :=
  (C3_suspend_always_succeeds devA).2.2 (by decide)

-- ===== C4 =====

/-- A command buffer whose header magic is wrong. -/
def bufBad : Dmabuf := { header := {}, descs := [] }

/-- A command buffer with a valid header magic and no descriptors. -/
def bufOK : Dmabuf := { header := { dmabuf_magic_m := 0xB5B5 }, descs := [] }

/-- C4 (amended): on a physically unaligned buffer `run_dmabuf` fails
before touching any register — with `DmabufNotAligned` when the header
magic is valid, and with `InvalidDmabuf` when the magic check (which runs
first) already fails; in either case the register state, and hence the
write trace of the array-base registers, is unchanged. -/
theorem C4_unaligned_fails_without_register_writes (s : RegState)
    (rt : TpuRuntimeState) (buf : Dmabuf) (dmabuf_paddr limit c : Nat)
    (hal : dmabuf_paddr &&& 0xFFF ≠ 0) :
    (buf.header.is_valid = true →
      run_dmabuf s rt buf dmabuf_paddr limit c =
        some (Except.error TpuError.DmabufNotAligned, s, rt, c)) ∧
    (buf.header.is_valid = false →
      run_dmabuf s rt buf dmabuf_paddr limit c =
        some (Except.error TpuError.InvalidDmabuf, s, rt, c)) ∧
    (∀ res s' rt' c',
      run_dmabuf s rt buf dmabuf_paddr limit c = some (res, s', rt', c') →
      s'.trace = s.trace) := by
  have hrun : run_dmabuf s rt buf dmabuf_paddr limit c =
      some (Except.error
        (if buf.header.is_valid then TpuError.DmabufNotAligned
         else TpuError.InvalidDmabuf), s, rt, c) := by
    by_cases hv : buf.header.is_valid <;> simp [run_dmabuf, hv, hal]
  refine ⟨fun hv => ?_, fun hv => ?_, fun res s' rt' c' h => ?_⟩
  · rw [hrun, hv]; rfl
  · rw [hrun, hv]; rfl
  · rw [hrun] at h
    simp only [Option.some.injEq, Prod.mk.injEq] at h
    obtain ⟨-, hs, -, -⟩ := h
    rw [← hs]

/-- Witness for C4: a well-formed header at an unaligned physical address
fails with `DmabufNotAligned` and leaves the registers untouched. -/
theorem C4_unaligned_fails_without_register_writes_witness :
    run_dmabuf regsZero {} bufOK 0x2001 TIMEOUT_LIMIT 0 =
      some (Except.error TpuError.DmabufNotAligned, regsZero, {}, 0) :=
  (C4_unaligned_fails_without_register_writes regsZero {} bufOK 0x2001
    TIMEOUT_LIMIT 0 (by decide)).1 (by decide)

/-- C4 counterexample: the claim promises `DmabufNotAligned` for every
unaligned buffer, but when the header magic is also invalid the magic
check runs first and the failure is `InvalidDmabuf` instead. -/
theorem C4_unaligned_invalid_magic_counterexample :
    (0x2001 &&& 0xFFF ≠ 0) ∧
    run_dmabuf regsZero {} bufBad 0x2001 TIMEOUT_LIMIT 0 =
      some (Except.error TpuError.InvalidDmabuf, regsZero, {}, 0) ∧
    TpuError.InvalidDmabuf ≠ TpuError.DmabufNotAligned :=
  ⟨by decide, rfl, by decide⟩

-- ===== C1 =====

/-- C1 counterexample: a task whose buffer has a bad header magic (so
`run_dmabuf` fails with `InvalidDmabuf`) IS pushed onto `done_list`, with
`ret = -1`, and the device ends in `Idle` — the drain loop never drops a
failed task. -/
def taskA : TpuTaskNode :=
  { seq_no := 7, dmabuf_fd := 3, dmabuf_vaddr := 0x1000, dmabuf_paddr := 0x2000 }

/-- The memory oracle placing a bad-magic buffer at every address. -/
def memBad : Nat → Dmabuf := fun _ => bufBad

/-- An idle device with the single pending task `taskA`. -/
def dev1 : TpuDev :=
  { regs := regsZero, state := TpuState.Idle, runtime := {},
    task_list := [taskA], done_list := [] }

/-- C1 counterexample: after the drain loop runs the failing submission,
`done_list` holds the failed task (seq 7, ret -1) — it is not dropped. -/
theorem C1_failed_task_enqueued_counterexample :
    (process_task_locked memBad dev1).map
        (fun d => (d.state, d.done_list.map (fun t => (t.seq_no, t.ret)))) =
      some (TpuState.Idle, [(7, -1)]) := rfl

/-- C1 (amended): when the `run_dmabuf` execution of a submitted task
returns an error, the SUBMIT_DMABUF drain loop leaves the device state
equal to `Idle` and pushes the failed task, with `ret = -1`, onto
`done_list`. -/
theorem C1_failed_run_idle_and_pushed (mem : Nat → Dmabuf) (d : TpuDev)
    (task : TpuTaskNode) (e : TpuError) (s' : RegState)
    (rt' : TpuRuntimeState) (c' : Nat)
    (htl : d.task_list = [task])
    (hst : d.state = TpuState.Idle ∨ d.state = TpuState.Uninit)
    (hrun : run_dmabuf (resync_cmd_id d.regs)
        { d.runtime with irq_received := false }
        (mem task.dmabuf_vaddr) task.dmabuf_paddr TIMEOUT_LIMIT 0 =
      some (Except.error e, s', rt', c')) :
    process_task_locked mem d =
      some { regs := s', state := TpuState.Idle, runtime := rt',
             task_list := [],
             done_list := d.done_list ++ [{ task with ret := -1 }] } := by
  have hguard : ¬(d.state ≠ TpuState.Idle ∧ d.state ≠ TpuState.Uninit) := by
    rcases hst with h | h <;> simp [h]
  simp only [process_task_locked, htl, drainTasks, run_dmabuf_internal, hguard,
    if_false, ite_false]
  rw [hrun]

/-- Witness for C1 at the concrete failing submission `dev1`/`memBad`. -/
theorem C1_failed_run_idle_and_pushed_witness :
    process_task_locked memBad dev1 =
      some { regs := resync_cmd_id dev1.regs, state := TpuState.Idle,
             runtime := { dev1.runtime with irq_received := false },
             task_list := [],
             done_list := dev1.done_list ++ [{ taskA with ret := -1 }] } :=
  C1_failed_run_idle_and_pushed memBad dev1 taskA TpuError.InvalidDmabuf
    (resync_cmd_id dev1.regs) { dev1.runtime with irq_received := false } 0
    rfl (Or.inl rfl) rfl

-- ===== C7 =====

/-- `findRemove` misses exactly when no entry matches the sequence number. -/
theorem findRemove_none_iff (seq : Nat) (xs : List TpuTaskNode) :
    findRemove seq xs = none ↔ ∀ t ∈ xs, t.seq_no ≠ seq := by
  induction xs with
  | nil => simp [findRemove]
  | cons t rest ih =>
    by_cases h : t.seq_no = seq
    · simp [findRemove, h]
    · cases hfr : findRemove seq rest with
      | none =>
        simp only [findRemove, h, if_false, ite_false, hfr]
        constructor
        · intro _ u hu
          rcases List.mem_cons.mp hu with rfl | hu
          · exact h
          · exact (ih.mp hfr) u hu
        · intro _; trivial
      | some p =>
        simp only [findRemove, h, if_false, ite_false, hfr]
        constructor
        · intro hc; cases hc
        · intro hall
          exfalso
          have hnone : findRemove seq rest = none :=
            ih.mpr (fun u hu => hall u (List.mem_cons_of_mem _ hu))
          rw [hfr] at hnone
          cases hnone

/-- A `findRemove` hit returns a task with the requested sequence number
and removes exactly one matching entry. -/
theorem findRemove_some_spec (seq : Nat) :
    ∀ (xs : List TpuTaskNode) (t : TpuTaskNode) (rest : List TpuTaskNode),
    findRemove seq xs = some (t, rest) →
    t.seq_no = seq ∧
      (rest.filter (fun x => x.seq_no == seq)).length + 1 =
        (xs.filter (fun x => x.seq_no == seq)).length := by
  intro xs
  induction xs with
  | nil => intro t rest h; simp [findRemove] at h
  | cons u us ih =>
    intro t rest h
    by_cases hu : u.seq_no = seq
    · simp only [findRemove, hu, if_true, ite_true, Option.some.injEq,
        Prod.mk.injEq] at h
      obtain ⟨rfl, rfl⟩ := h
      exact ⟨hu, by simp [List.filter, hu]⟩
    · cases hfr : findRemove seq us with
      | none => simp [findRemove, hu, hfr] at h
      | some p =>
        obtain ⟨v, l⟩ := p
        simp only [findRemove, hu, if_false, ite_false, hfr,
          Option.some.injEq, Prod.mk.injEq] at h
        obtain ⟨rfl, rfl⟩ := h
        obtain ⟨h1, h2⟩ := ih v l hfr
        have hbeq : (u.seq_no == seq) = false := by simp [hu]
        exact ⟨h1, by simp [List.filter_cons, hbeq, h2]⟩

/-- C7: `WAIT_DMABUF` removes exactly one matching `done_list` entry on a
hit, reporting that task's `ret` and returning 0; on a miss it writes
`ret = -1` and returns an error.  Consequently a `seq_no` completed once
succeeds exactly once: a second wait for the same `seq_no` fails. -/
theorem C7_wait_dmabuf_exactly_once (d : TpuDev) (seq : Nat) :
    (∀ t rest, findRemove seq d.done_list = some (t, rest) →
      wait_dmabuf d seq = (Except.ok 0, t.ret, { d with done_list := rest }) ∧
      t.seq_no = seq ∧
      (rest.filter (fun x => x.seq_no == seq)).length + 1 =
        (d.done_list.filter (fun x => x.seq_no == seq)).length) ∧
    ((∀ t ∈ d.done_list, t.seq_no ≠ seq) →
      wait_dmabuf d seq = (Except.error TpuError.NotInit, -1, d)) ∧
    ((d.done_list.filter (fun x => x.seq_no == seq)).length = 1 →
      (wait_dmabuf d seq).1 = Except.ok 0 ∧
      (wait_dmabuf (wait_dmabuf d seq).2.2 seq).1 =
        Except.error TpuError.NotInit ∧
      (wait_dmabuf (wait_dmabuf d seq).2.2 seq).2.1 = -1) := by
  refine ⟨?_, ?_, ?_⟩
  · intro t rest h
    refine ⟨by simp [wait_dmabuf, h], findRemove_some_spec seq d.done_list t rest h⟩
  · intro hmiss
    have h0 : findRemove seq d.done_list = none :=
      (findRemove_none_iff seq d.done_list).mpr hmiss
    simp [wait_dmabuf, h0]
  · intro hone
    have hne : findRemove seq d.done_list ≠ none := by
      intro h0
      have hall := (findRemove_none_iff seq d.done_list).mp h0
      have hnil : d.done_list.filter (fun x => x.seq_no == seq) = [] := by
        rw [List.filter_eq_nil_iff]
        intro a ha
        simp [hall a ha]
      rw [hnil] at hone
      simp at hone
    obtain ⟨⟨t, rest⟩, hfr⟩ := Option.ne_none_iff_exists'.mp hne
    obtain ⟨hseq, hlen⟩ := findRemove_some_spec seq d.done_list t rest hfr
    have hrest0 : (rest.filter (fun x => x.seq_no == seq)).length = 0 := by omega
    have hrestnil : rest.filter (fun x => x.seq_no == seq) = [] :=
      List.length_eq_zero.mp hrest0
    have hnomatch : ∀ u ∈ rest, u.seq_no ≠ seq := by
      intro u hu hcon
      have hmem : u ∈ rest.filter (fun x => x.seq_no == seq) :=
        List.mem_filter.mpr ⟨hu, by simp [hcon]⟩
      rw [hrestnil] at hmem
      cases hmem
    have hfr2 : findRemove seq rest = none :=
      (findRemove_none_iff seq rest).mpr hnomatch
    simp [wait_dmabuf, hfr, hfr2]

/-- A device whose `done_list` holds one completed task with seq 9. -/
def devDone : TpuDev :=
  { regs := regsZero, state := TpuState.Idle, runtime := {},
    task_list := [],
    done_list := [{ seq_no := 9, dmabuf_fd := 4, dmabuf_vaddr := 0,
                    dmabuf_paddr := 0, ret := 0 }] }

/-- Witness for C7: seq 9 completed once — the first wait succeeds, the
second fails with `ret = -1`. -/
theorem C7_wait_dmabuf_exactly_once_witness :
    (wait_dmabuf devDone 9).1 = Except.ok 0 ∧
    (wait_dmabuf (wait_dmabuf devDone 9).2.2 9).1 =
      Except.error TpuError.NotInit ∧
    (wait_dmabuf (wait_dmabuf devDone 9).2.2 9).2.1 = -1 :=
  (C7_wait_dmabuf_exactly_once devDone 9).2.2 (by decide)

-- ===== C6 =====

/-- Marking a handle mapped preserves its registry entry, with the
`mapped` flag now set. -/
theorem lookupReg_setMapped (reg : List (Nat × IonBuffer)) (h : Nat)
    (b : IonBuffer) (hl : lookupReg reg h = some b) :
    lookupReg (setMapped reg h) h = some { b with mapped := true } := by
  induction reg with
  | nil => simp [lookupReg] at hl
  | cons p rest ih =>
    obtain ⟨k, v⟩ := p
    by_cases hk : k = h
    · subst hk
      have hl' : v = b := by simpa [lookupReg] using hl
      subst hl'
      have hf : setMapped ((k, v) :: rest) k =
          (k, { v with mapped := true }) :: setMapped rest k := by
        simp [setMapped]
      rw [hf]
      simp [lookupReg]
    · have hf : setMapped ((k, v) :: rest) h = (k, v) :: setMapped rest h := by
        simp [setMapped, hk]
      have hl' : lookupReg rest h = some b := by
        simpa [lookupReg, hk] using hl
      rw [hf]
      simpa [lookupReg, hk] using ih hl'

/-- C6 (amended): `mmap` on /dev/ion truncates `offset` to 32 bits and
interprets it as a handle.  When the truncated offset is a registered
handle, it returns the physical range starting at the buffer's bus
address sized `min(length, size)` (the whole buffer when `length = 0`)
and sets the buffer's `mapped` flag; when the truncated offset is not
registered it returns no mapping and changes nothing. -/
theorem C6_ion_mmap_handle_lookup (st : IonState) (offset length : Nat) :
    (∀ buffer, lookupReg st.registry (u32 offset) = some buffer →
      ion_mmap st offset length =
        (DeviceMmap.Physical buffer.dmaInfo.busAddr
           (if length > 0 then min length buffer.size else buffer.size),
         { st with registry := setMapped st.registry (u32 offset) }) ∧
      lookupReg (ion_mmap st offset length).2.registry (u32 offset) =
        some { buffer with mapped := true }) ∧
    (lookupReg st.registry (u32 offset) = none →
      ion_mmap st offset length = (DeviceMmap.NoMap, st)) := by
  constructor
  · intro buffer h
    constructor
    · simp [ion_mmap, h]
    · have : (ion_mmap st offset length).2.registry =
          setMapped st.registry (u32 offset) := by
        simp [ion_mmap, h]
      rw [this]
      exact lookupReg_setMapped st.registry (u32 offset) buffer h
  · intro h
    simp [ion_mmap, h]

/-- A registered coherent buffer with handle 1. -/
def bufC6 : IonBuffer :=
  { handle := 1, dmaInfo := { cpuAddr := 0xA000, busAddr := 0x8000 },
    size := 4096, heapType := IonHeapType.DmaCoherent, flags := 0,
    refCount := 1, mapped := false }

/-- An ion state whose registry holds exactly `bufC6` under handle 1. -/
def stC6 : IonState := { registry := [(1, bufC6)], nextHandle := 2, allocs := [] }

/-- Witness for C6: mapping handle 1 with `length = 100` yields the
physical range `(0x8000, 100)` and marks the buffer mapped. -/
theorem C6_ion_mmap_handle_lookup_witness :
    ion_mmap stC6 1 100 =
      (DeviceMmap.Physical bufC6.dmaInfo.busAddr
         (if 100 > 0 then min 100 bufC6.size else bufC6.size),
       { stC6 with registry := setMapped stC6.registry (u32 1) }) ∧
    lookupReg (ion_mmap stC6 1 100).2.registry (u32 1) =
      some { bufC6 with mapped := true } :=
  (C6_ion_mmap_handle_lookup stC6 1 100).1 bufC6 (by decide)

/-- C6 counterexample: the offset is truncated to 32 bits before the
lookup, so the offset `2^32 + 1` — which is not a registered handle —
still maps the buffer registered under handle 1 instead of failing. -/
theorem C6_offset_truncation_counterexample :
    stC6.registry.map Prod.fst = [1] ∧
    (2 ^ 32 + 1 : Nat) ≠ 1 ∧
    (ion_mmap stC6 (2 ^ 32 + 1) 0).1 = DeviceMmap.Physical 0x8000 4096 := by
  refine ⟨rfl, by decide, rfl⟩

-- ===== C5 / C10 helper lemmas =====

/-- `alloc_buffer` never touches the registry, and a successful allocation
carries exactly the requested heap type. -/
theorem alloc_buffer_spec (alloc : Nat → Nat → Option DmaInfo) (st : IonState)
    (size align : Nat) (ht : IonHeapType) (flags : Nat) :
    (alloc_buffer alloc st size align ht flags).2.registry = st.registry ∧
    ∀ buf, (alloc_buffer alloc st size align ht flags).1 = Except.ok buf →
      buf.heapType = ht := by
  by_cases hz : size = 0
  · simp [alloc_buffer, hz]
  · cases ht <;>
    · simp only [alloc_buffer, hz, if_false, ite_false]
      unfold alloc_dma_buffer
      by_cases hl : layoutValid size align
      · cases halloc : alloc size align <;> simp [hl, halloc]
      · simp [hl]

/-- When the size is nonzero and the layout is valid, `alloc_buffer`
records exactly one coherent allocation request `(size, align)`. -/
theorem alloc_buffer_allocs (alloc : Nat → Nat → Option DmaInfo) (st : IonState)
    (size align : Nat) (ht : IonHeapType) (flags : Nat)
    (hz : size ≠ 0) (hl : layoutValid size align = true) :
    (alloc_buffer alloc st size align ht flags).2.allocs =
      st.allocs ++ [(size, align)] := by
  cases ht <;>
  · simp only [alloc_buffer, hz, if_false, ite_false]
    unfold alloc_dma_buffer
    cases halloc : alloc size align <;> simp [hl, halloc]

/-- `register_buffer` never touches the allocation log. -/
theorem register_buffer_allocs (st : IonState) (buf : IonBuffer) :
    (register_buffer st buf).2.allocs = st.allocs := by
  cases h : lookupReg st.registry buf.handle <;> simp [register_buffer, h]

/-- `register_buffer` on a fresh handle appends the buffer to the registry. -/
theorem register_buffer_fresh (st : IonState) (buf : IonBuffer)
    (h : lookupReg st.registry buf.handle = none) :
    register_buffer st buf =
      (Except.ok (), { st with registry := st.registry ++ [(buf.handle, buf)] }) := by
  simp [register_buffer, h]

-- ===== C5 =====

/-- C5: the ALLOC ioctl chooses the heap with precedence DmaCoherent
(mask bit 1), then Carveout (bit 2), then System (bit 0); when none of the
three bits is set it fails with `InvalidInput` leaving the whole ion state
— registry, handle counter and allocator log — untouched; when it
succeeds, the single buffer it registered carries the chosen heap type. -/
theorem C5_alloc_heap_precedence (alloc : Nat → Nat → Option DmaInfo)
    (newFd : Option Nat) (st : IonState) (d : IonAllocData) :
    (d.heap_id_mask &&& (1 <<< 1) ≠ 0 →
      chooseHeap d.heap_id_mask = some IonHeapType.DmaCoherent) ∧
    (d.heap_id_mask &&& (1 <<< 1) = 0 → d.heap_id_mask &&& (1 <<< 2) ≠ 0 →
      chooseHeap d.heap_id_mask = some IonHeapType.Carveout) ∧
    (d.heap_id_mask &&& (1 <<< 1) = 0 → d.heap_id_mask &&& (1 <<< 2) = 0 →
      d.heap_id_mask &&& (1 <<< 0) ≠ 0 →
      chooseHeap d.heap_id_mask = some IonHeapType.System) ∧
    (d.heap_id_mask &&& (1 <<< 1) = 0 → d.heap_id_mask &&& (1 <<< 2) = 0 →
      d.heap_id_mask &&& (1 <<< 0) = 0 →
      handle_alloc alloc newFd st d = (Except.error AxError.InvalidInput, st)) ∧
    (∀ out, (handle_alloc alloc newFd st d).1 = Except.ok out →
      ∃ ht buf, chooseHeap d.heap_id_mask = some ht ∧ buf.heapType = ht ∧
        (handle_alloc alloc newFd st d).2.registry =
          st.registry ++ [(buf.handle, buf)]) := by
  refine ⟨?_, ?_, ?_, ?_, ?_⟩
  · intro h1
    simp only [chooseHeap, IonHeapType.val]
    rw [if_pos h1]
  · intro h1 h2
    simp only [chooseHeap, IonHeapType.val]
    rw [if_neg (fun hc => hc h1), if_pos h2]
  · intro h1 h2 h3
    simp only [chooseHeap, IonHeapType.val]
    rw [if_neg (fun hc => hc h1), if_neg (fun hc => hc h2), if_pos h3]
  · intro h1 h2 h3
    have hch : chooseHeap d.heap_id_mask = none := by
      simp only [chooseHeap, IonHeapType.val]
      rw [if_neg (fun hc => hc h1), if_neg (fun hc => hc h2),
        if_neg (fun hc => hc h3)]
    simp [handle_alloc, hch]
  · intro out hok
    rcases hch : chooseHeap d.heap_id_mask with _ | ht
    · simp [handle_alloc, hch] at hok
    · rcases hab : alloc_buffer alloc st d.len 1 ht d.flags with ⟨eb, st1⟩
      cases eb with
      | error e => simp [handle_alloc, hch, hab] at hok
      | ok buf =>
        rcases hrb : register_buffer st1 buf with ⟨er, st2⟩
        cases er with
        | error e => simp [handle_alloc, hch, hab, hrb] at hok
        | ok u =>
          refine ⟨ht, buf, rfl, ?_, ?_⟩
          · exact (alloc_buffer_spec alloc st d.len 1 ht d.flags).2 buf
              (by rw [hab])
          · have h2 : (handle_alloc alloc newFd st d).2 = st2 := by
              simp only [handle_alloc, hch, hab, hrb]
              cases newFd <;> rfl
            have hreg1 : st1.registry = st.registry := by
              have hh := (alloc_buffer_spec alloc st d.len 1 ht d.flags).1
              rw [hab] at hh
              exact hh
            have hreg2 : st2.registry = st1.registry ++ [(buf.handle, buf)] := by
              rcases hlk : lookupReg st1.registry buf.handle with _ | b
              · rw [register_buffer_fresh st1 buf hlk] at hrb
                have hp := (Prod.mk.injEq _ _ _ _).mp hrb
                rw [← hp.2]
              · simp [register_buffer, hlk] at hrb
            rw [h2, hreg2, hreg1]

/-- The coherent-allocator oracle that always hands out the same range. -/
def allocOK : Nat → Nat → Option DmaInfo :=
  fun _ _ => some { cpuAddr := 0xA000, busAddr := 0x8000 }

/-- The empty ion state. -/
def stEmpty : IonState := { registry := [], nextHandle := 1, allocs := [] }

/-- An ALLOC request whose mask has none of the three heap bits set. -/
def dNoHeap : IonAllocData :=
  { len := 4096, align := 0, heap_id_mask := 8, flags := 0, fd := 0,
    unused := 0, paddr := 0 }

/-- Witness for C5: a mask with none of the three heap bits fails with
`InvalidInput` and leaves the ion state untouched. -/
theorem C5_alloc_heap_precedence_witness :
    handle_alloc allocOK (some 3) stEmpty dNoHeap =
      (Except.error AxError.InvalidInput, stEmpty) :=
  (C5_alloc_heap_precedence allocOK (some 3) stEmpty dNoHeap).2.2.2.1
    (by decide) (by decide) (by decide)

-- ===== C10 =====

/-- `handle_alloc` never reads the `align` field of the request: its
outcome on `{d with align := a}` is the outcome on `d` with `a` echoed
back in the written-back struct. -/
theorem handle_alloc_align_eq (alloc : Nat → Nat → Option DmaInfo)
    (newFd : Option Nat) (st : IonState) (d : IonAllocData) (a : Nat) :
    handle_alloc alloc newFd st { d with align := a } =
      ((handle_alloc alloc newFd st d).1.map (fun o => { o with align := a }),
       (handle_alloc alloc newFd st d).2) := by
  rcases hch : chooseHeap d.heap_id_mask with _ | ht
  · simp [handle_alloc, hch, Except.map]
  · rcases hab : alloc_buffer alloc st d.len 1 ht d.flags with ⟨eb, st1⟩
    cases eb with
    | error e => simp [handle_alloc, hch, hab, Except.map]
    | ok buf =>
      rcases hrb : register_buffer st1 buf with ⟨er, st2⟩
      cases er with
      | error e => simp [handle_alloc, hch, hab, hrb, Except.map]
      | ok u =>
        cases hfd : newFd with
        | none => simp [handle_alloc, hch, hab, hrb, hfd, Except.map]
        | some fd => simp [handle_alloc, hch, hab, hrb, hfd, Except.map]

/-- C10: the ALLOC ioctl ignores the `align` field — the backing coherent
allocation is always requested with alignment 1, and two requests
differing only in `align` produce the same state and the same result (up
to the request's own `align` value being echoed back in the struct). -/
theorem C10_align_field_ignored (alloc : Nat → Nat → Option DmaInfo)
    (newFd : Option Nat) (st : IonState) (d : IonAllocData) (a1 a2 : Nat) :
    (handle_alloc alloc newFd st { d with align := a1 }).2 =
      (handle_alloc alloc newFd st { d with align := a2 }).2 ∧
    (handle_alloc alloc newFd st { d with align := a1 }).1.map
        (fun o => { o with align := 0 }) =
      (handle_alloc alloc newFd st { d with align := a2 }).1.map
        (fun o => { o with align := 0 }) ∧
    (∀ ht, chooseHeap d.heap_id_mask = some ht → d.len ≠ 0 →
      layoutValid d.len 1 = true →
      (handle_alloc alloc newFd st d).2.allocs = st.allocs ++ [(d.len, 1)]) := by
  refine ⟨?_, ?_, ?_⟩
  · rw [handle_alloc_align_eq alloc newFd st d a1,
      handle_alloc_align_eq alloc newFd st d a2]
  · rw [handle_alloc_align_eq alloc newFd st d a1,
      handle_alloc_align_eq alloc newFd st d a2]
    cases (handle_alloc alloc newFd st d).1 <;> rfl
  · intro ht hch hz hl
    rcases hab : alloc_buffer alloc st d.len 1 ht d.flags with ⟨eb, st1⟩
    have hal : st1.allocs = st.allocs ++ [(d.len, 1)] := by
      have hh := alloc_buffer_allocs alloc st d.len 1 ht d.flags hz hl
      rw [hab] at hh
      exact hh
    cases eb with
    | error e =>
      have h2 : (handle_alloc alloc newFd st d).2 = st1 := by
        simp [handle_alloc, hch, hab]
      rw [h2, hal]
    | ok buf =>
      rcases hrb : register_buffer st1 buf with ⟨er, st2⟩
      have hal2 : st2.allocs = st1.allocs := by
        have hh := register_buffer_allocs st1 buf
        rw [hrb] at hh
        exact hh
      cases er with
      | error e =>
        have h2 : (handle_alloc alloc newFd st d).2 = st2 := by
          simp [handle_alloc, hch, hab, hrb]
        rw [h2, hal2, hal]
      | ok u =>
        have h2 : (handle_alloc alloc newFd st d).2 = st2 := by
          simp only [handle_alloc, hch, hab, hrb]
          cases newFd <;> rfl
        rw [h2, hal2, hal]

/-- An ALLOC request for 4096 bytes from the DmaCoherent heap. -/
def dCoherent : IonAllocData :=
  { len := 4096, align := 0, heap_id_mask := 2, flags := 0, fd := 0,
    unused := 0, paddr := 0 }

/-- Witness for C10: with the DmaCoherent request the backing allocation
is recorded with alignment 1. -/
theorem C10_align_field_ignored_witness :
    (handle_alloc allocOK (some 3) stEmpty dCoherent).2.allocs =
      stEmpty.allocs ++ [(dCoherent.len, 1)] :=
  (C10_align_field_ignored allocOK (some 3) stEmpty dCoherent 4 8).2.2
    IonHeapType.DmaCoherent (by decide) (by decide) (by decide)

end Starry
